import Mathlib

/-!
Shallow embedding of `vdirsyncer/cli/utils.py` (status persistence,
permission guard, CLI error reporting and the storage factory), together
with theorems settling the specification claims about that unit.

Filesystem state is explicit (an association list from paths to files plus
a set of directories); every effectful Python function becomes a pure Lean
function from a filesystem state to a result, a new state and a list of
observable events (log messages, renames, construction attempts).
Collaborators that live outside the provided sources (the `json` module,
`expand_path`, `atomic_write`, `SqliteStatus`, the storage classes and the
exception class hierarchy) are modelled from the specification, each marked
as such in its doc comment.
-/

namespace Vdirsyncer

/-- Python values appearing in configuration dictionaries: `None`, strings,
and the opaque shared network connector object. -/
inductive Val where
  | vnull
  | vstr (s : String)
  | vconn
deriving DecidableEq, Repr

/-- Python `str()` rendering of a configuration value, as used by f-strings
and `str.format`. -/
def Val.pyStr : Val → String
  | .vnull => "None"
  | .vstr s => s
  | .vconn => "<connector>"

/-- Modelled from the spec: `json.dumps` of a configuration value (the
`json` module is outside the provided sources). -/
def Val.jsonDumps : Val → String
  | .vnull => "null"
  | .vstr s => "\"" ++ s ++ "\""
  | .vconn => "<unserializable>"

/-- The exception values flowing through the unit: one constructor per
Python exception class that `cli/utils.py` distinguishes, plus `other` for
any remaining `Exception`. The class hierarchy itself lives outside the
provided sources, so the kinds are modelled from the closed taxonomy of the
spec as a flat tagged union. -/
inductive Exc where
  | userError (msg : String) (problems : List String)
  | collectionNotFound (msg : String)
  | storageEmpty (instanceName : String)
  | partialSync (storage : String)
  | syncConflict (ident hrefA hrefB : String)
  | identConflict (instanceName : String) (hrefs : List String)
  | clickAbort
  | keyboardInterrupt
  | jobFailed
  | pairNotFound (pairName : String)
  | invalidResponse (msg : String)
  | collectionRequired
  | osError (msg : String)
  | valueError (msg : String)
  | typeError (reprHasInit : Bool) (msg : String)
  | notImplementedError (msg : String)
  | keyError (msg : String)
  | other (msg : String)
deriving DecidableEq, Repr

/-- Modelled from the spec: Python `str()` of an exception is its message;
a `UserError` appends its attached problem list (the `UserError` class is
outside the provided sources). -/
def Exc.pyStr : Exc → String
  | .userError m ps => m ++ String.join (ps.map (fun p => "\n  - " ++ p))
  | .collectionNotFound m => m
  | .storageEmpty n => n
  | .partialSync s => s
  | .syncConflict i _ _ => i
  | .identConflict n _ => n
  | .clickAbort => ""
  | .keyboardInterrupt => ""
  | .jobFailed => ""
  | .pairNotFound p => p
  | .invalidResponse m => m
  | .collectionRequired => ""
  | .osError m => m
  | .valueError m => m
  | .typeError _ m => m
  | .notImplementedError m => m
  | .keyError m => m
  | .other m => m

/-- The user-cancel kinds that `handle_cli_error` swallows silently:
`click.Abort`, `KeyboardInterrupt` and `JobFailed`. -/
def Exc.isAbortKind : Exc → Bool
  | .clickAbort => true
  | .keyboardInterrupt => true
  | .jobFailed => true
  | _ => false

/-- Logging levels used by `cli_logger` in this unit. -/
inductive Level where
  | critical
  | error
  | warning
  | debug
deriving DecidableEq, Repr

/-- Observable events of an execution: log messages, the legacy status
rename, one storage construction attempt, and one invocation of the
collection-not-found recovery flow. -/
inductive Ev where
  | logMsg (lvl : Level) (msg : String)
  | renameEv (src dst : String)
  | recoveryInvoked
  | constructAttempt (create : Bool)
deriving DecidableEq, Repr

/-- A user-visible message: logged at `critical` or `error` level
(`warning` and `debug` output is diagnostic, not a per-error report). -/
def Ev.isUserMsg : Ev → Bool
  | .logMsg .critical _ => true
  | .logMsg .error _ => true
  | _ => false

/-- Number of user-visible messages in an event list. -/
def userMsgCount (evs : List Ev) : Nat := evs.countP Ev.isUserMsg

/-- Event of renaming a legacy status file. -/
def Ev.isRename : Ev → Bool
  | .renameEv _ _ => true
  | _ => false

/-- Number of legacy status renames in an event list. -/
def renameCount (evs : List Ev) : Nat := evs.countP Ev.isRename

/-- The warning emitted exactly when `manage_sync_status` migrates a legacy
flat-JSON status into the incremental store. -/
def Ev.isLegacyMigrationWarn : Ev → Bool
  | .logMsg .warning m => m == "Migrating legacy status to sqlite"
  | _ => false

/-- Number of legacy-to-sqlite migrations performed, counted by the
migration warning the code emits on that path and nowhere else. -/
def migrationCount (evs : List Ev) : Nat := evs.countP Ev.isLegacyMigrationWarn

/-- Event of entering `handle_collection_not_found`. -/
def Ev.isRecovery : Ev → Bool
  | .recoveryInvoked => true
  | _ => false

/-- Number of recovery-flow invocations in an event list. -/
def recoveryCount (evs : List Ev) : Nat := evs.countP Ev.isRecovery

/-- Event of attempting `cls(**new_config)`. -/
def Ev.isConstructAttempt : Ev → Bool
  | .constructAttempt _ => true
  | _ => false

/-- Number of storage construction attempts in an event list. -/
def constructCount (evs : List Ev) : Nat := evs.countP Ev.isConstructAttempt

/-- File contents relevant to this unit, classified by how `json.load`,
`dict(...)` and the first-byte peek behave on them. The concrete byte-level
formats are outside the provided sources; the classification follows the
spec (legacy detection by first byte, parse failures, the incremental
sqlite store). -/
inductive FileContent where
  | jsonObj (m : List (String × String))
  | jsonNonObj
  | notJson (braceFirst : Bool)
  | sqliteDb (m : List (String × String))
deriving DecidableEq, Repr

/-- A status mapping: item identifiers to opaque state blobs. -/
abbrev StatusMap := List (String × String)

/-- Whether the first byte of the serialized content is `{`: true exactly
for a serialized JSON object; a sqlite database starts with an ASCII `S`;
unparseable content may or may not start with `{`. -/
def FileContent.firstByteIsBrace : FileContent → Bool
  | .jsonObj _ => true
  | .jsonNonObj => false
  | .notJson b => b
  | .sqliteDb _ => false

/-- Modelled from the spec: `dict(json.load(f))` on the file content.
Unparseable bytes raise `ValueError` (so does a sqlite database, which is
not JSON); a valid JSON value that is not an object raises `TypeError`
from `dict(...)`. -/
def FileContent.jsonLoadDict : FileContent → Except Exc StatusMap
  | .jsonObj m => .ok m
  | .jsonNonObj => .error (.typeError false "cannot convert JSON value to dict")
  | .notJson _ => .error (.valueError "invalid JSON")
  | .sqliteDb _ => .error (.valueError "invalid JSON")

/-- A file: its content and its permission bits. -/
structure File where
  content : FileContent
  mode : Nat
deriving DecidableEq, Repr

/-- Remove every binding of key `k` from an association list. -/
def eraseKey {α : Type} (k : String) (l : List (String × α)) : List (String × α) :=
  l.filter (fun kv => kv.1 != k)

/-- Explicit filesystem state: files by path, plus the set of directories. -/
structure FS where
  files : List (String × File)
  dirs : List String
deriving DecidableEq, Repr

/-- The file at `p`, if any. -/
def FS.lookupFile (fs : FS) (p : String) : Option File := fs.files.lookup p

/-- Models `os.path.isfile`. -/
def FS.isfile (fs : FS) (p : String) : Bool := (fs.lookupFile p).isSome

/-- Directory existence. -/
def FS.isdir (fs : FS) (p : String) : Bool := fs.dirs.contains p

/-- Models `os.path.exists`: a file or a directory. -/
def FS.pathExists (fs : FS) (p : String) : Bool := fs.isfile p || fs.isdir p

/-- Create or overwrite the file at `p`. -/
def FS.setFile (fs : FS) (p : String) (f : File) : FS :=
  { fs with files := (p, f) :: eraseKey p fs.files }

/-- Models `os.remove`. -/
def FS.removeFile (fs : FS) (p : String) : FS :=
  { fs with files := eraseKey p fs.files }

/-- Models `os.rename` (no-op when the source is absent; our callers always
check existence first). -/
def FS.renameFile (fs : FS) (src dst : String) : FS :=
  match fs.lookupFile src with
  | some f => (fs.removeFile src).setFile dst f
  | none => fs

/-- Models `os.chmod` (our callers only apply it to existing files). -/
def FS.chmod (fs : FS) (p : String) (m : Nat) : FS :=
  match fs.lookupFile p with
  | some f => fs.setFile p { f with mode := m }
  | none => fs

/-- Models `open(path)`: the content on success, `OSError` when there is no file
at `path` (including when `path` is a directory). -/
def FS.openFile (fs : FS) (p : String) : Except Exc FileContent :=
  match fs.lookupFile p with
  | some f => .ok f.content
  | none => .error (.osError ("No such file: " ++ p))

theorem lookup_eraseKey_self {α : Type} (k : String) (l : List (String × α)) :
    (eraseKey k l).lookup k = none := by
  induction l with
  | nil => rfl
  | cons hd tl ih =>
    obtain ⟨a, b⟩ := hd
    by_cases h : a = k
    · simpa [eraseKey, List.filter_cons, h] using ih
    · have hk : (k == a) = false := beq_eq_false_iff_ne.mpr (Ne.symm h)
      simpa [eraseKey, List.filter_cons, h, List.lookup, bne_iff_ne,
        hk] using ih

theorem lookup_eraseKey_ne {α : Type} (k q : String) (l : List (String × α))
    (h : q ≠ k) : (eraseKey k l).lookup q = l.lookup q := by
  induction l with
  | nil => rfl
  | cons hd tl ih =>
    obtain ⟨a, b⟩ := hd
    by_cases h1 : a = k
    · subst h1
      have hq : (q == a) = false := beq_eq_false_iff_ne.mpr h
      simpa [eraseKey, List.filter_cons, List.lookup, hq, bne_iff_ne] using ih
    · by_cases h2 : q = a
      · have hq : (q == a) = true := beq_iff_eq.mpr h2
        simp [eraseKey, List.filter_cons, h1, bne_iff_ne, List.lookup, hq]
      · have hq : (q == a) = false := beq_eq_false_iff_ne.mpr h2
        simpa [eraseKey, List.filter_cons, h1, bne_iff_ne, List.lookup,
          hq] using ih

theorem FS.lookupFile_setFile_self (fs : FS) (p : String) (f : File) :
    (fs.setFile p f).lookupFile p = some f := by
  simp [FS.setFile, FS.lookupFile, List.lookup]

theorem FS.lookupFile_setFile_ne (fs : FS) (p q : String) (f : File)
    (h : q ≠ p) : (fs.setFile p f).lookupFile q = fs.lookupFile q := by
  simp only [FS.setFile, FS.lookupFile, List.lookup]
  rw [show (q == p) = false from beq_eq_false_iff_ne.mpr h]
  exact lookup_eraseKey_ne p q fs.files h

theorem FS.lookupFile_removeFile_self (fs : FS) (p : String) :
    (fs.removeFile p).lookupFile p = none := by
  simp [FS.removeFile, FS.lookupFile, lookup_eraseKey_self]

theorem FS.lookupFile_removeFile_ne (fs : FS) (p q : String)
    (h : q ≠ p) : (fs.removeFile p).lookupFile q = fs.lookupFile q := by
  simp [FS.removeFile, FS.lookupFile, lookup_eraseKey_ne p q fs.files h]

theorem FS.dirs_setFile (fs : FS) (p : String) (f : File) :
    (fs.setFile p f).dirs = fs.dirs := rfl

theorem FS.dirs_removeFile (fs : FS) (p : String) :
    (fs.removeFile p).dirs = fs.dirs := rfl

theorem FS.lookupFile_chmod_ne (fs : FS) (p q : String) (m : Nat)
    (h : q ≠ p) : (fs.chmod p m).lookupFile q = fs.lookupFile q := by
  unfold FS.chmod
  cases fs.lookupFile p with
  | none => rfl
  | some f => exact fs.lookupFile_setFile_ne p q { f with mode := m } h

/-! ## The functions of `cli/utils.py` -/

/-- Models `STATUS_PERMISSIONS`: status files must not exceed `rw-------`. -/
def STATUS_PERMISSIONS : Nat := 0o600

/-- Models `STATUS_DIR_PERMISSIONS`: status directories must not exceed `rwx------`. -/
def STATUS_DIR_PERMISSIONS : Nat := 0o700

/-- Modelled from the spec: `expand_path` (in `vdirsyncer.utils`, outside
the provided sources) normalizes a path; on the already-absolute paths of
this development it is the identity. -/
def expand_path (p : String) : String := p

/-- Modelled from the Python standard library: `os.path.join` with a
relative second component. -/
def path_join (a b : String) : String := a ++ "/" ++ b

/-- Modelled from the Python standard library: `os.path.dirname`. -/
def os_dirname (p : String) : String :=
  String.intercalate "/" (p.splitOn "/").dropLast

/-- Octal rendering of a mode, as the `:o` format specifier prints it. -/
def octStr (n : Nat) : String := String.mk (Nat.toDigits 8 n)

/-- Python interpolation of an optional string (`None` when absent). -/
def pyShow : Option String → String
  | none => "None"
  | some s => s

/-- Python truthiness of an optional string (`None` and `""` are falsy). -/
def pyTruthy : Option String → Bool
  | none => false
  | some s => s ≠ ""

/-- Models `get_status_name`. -/
def get_status_name (pair : String) (collection : Option String) : String :=
  match collection with
  | none => pair
  | some c => pair ++ "/" ++ c

/-- The unsuffixed status path `expand_path(os.path.join(base_path,
status_name))` computed by `get_status_path` and `save_status`. -/
def statusPathBase (base_path pair : String) (collection : Option String) : String :=
  expand_path (path_join base_path (get_status_name pair collection))

/-- Models `get_status_path`: computes the suffixed status path, renaming an
extensionless legacy file once when `data_type == "items"`. -/
def get_status_path (fs : FS) (base_path pair : String)
    (collection : Option String) (data_type : String) :
    String × FS × List Ev :=
  let path := statusPathBase base_path pair collection
  if fs.isfile path && (data_type == "items") then
    let new_path := path ++ ".items"
    (path ++ "." ++ data_type,
     fs.renameFile path new_path,
     [Ev.logMsg .warning
        ("Migrating statuses: Renaming " ++ path ++ " to " ++ new_path),
      Ev.renameEv path new_path])
  else
    (path ++ "." ++ data_type, fs, [])

/-- Models `assert_permissions`: reads `os.stat(path).st_mode & 0o777` and, when
it numerically exceeds `wanted`, warns and chmods the file to `wanted`.
`os.stat` on a missing path raises `OSError`. -/
def assert_permissions (fs : FS) (path : String) (wanted : Nat) :
    Except Exc (FS × List Ev) :=
  match fs.lookupFile path with
  | none => .error (.osError ("No such file: " ++ path))
  | some f =>
    let permissions := f.mode % 512
    if wanted < permissions then
      .ok (fs.chmod path wanted,
        [Ev.logMsg .warning
          ("Correcting permissions of " ++ path ++ " from "
            ++ octStr permissions ++ " to " ++ octStr wanted)])
    else
      .ok (fs, [])

/-- Models `load_status`: empty mapping when the path is absent, permission check
then `dict(json.load(f))`, with `ValueError` degraded to the empty
mapping. -/
def load_status (fs : FS) (base_path pair : String)
    (collection : Option String) (data_type : String) :
    Except Exc (StatusMap × FS × List Ev) :=
  let r := get_status_path fs base_path pair collection data_type
  let path := r.1
  let fs1 := r.2.1
  let evs1 := r.2.2
  if fs1.pathExists path then
    match assert_permissions fs1 path STATUS_PERMISSIONS with
    | .error e => .error e
    | .ok (fs2, evs2) =>
      match fs2.openFile path with
      | .error e => .error e
      | .ok c =>
        match c.jsonLoadDict with
        | .ok m => .ok (m, fs2, evs1 ++ evs2)
        | .error (.valueError _) => .ok ([], fs2, evs1 ++ evs2)
        | .error e => .error e
  else
    .ok ([], fs1, evs1)

/-- Models `prepare_status_path`: `os.makedirs(dirname(path), 0o700)` with the
already-exists error swallowed. -/
def prepare_status_path (fs : FS) (path : String) : FS :=
  let d := os_dirname path
  if fs.isdir d then fs else { fs with dirs := d :: fs.dirs }

/-- Modelled from the spec: opening the incremental (sqlite) status store
at `path`; an existing store is opened in place, an absent one is created
empty. Per the note in §9 of the spec, a pre-existing non-store file on this path
is silently treated as a fresh store. -/
def sqlite_open (fs : FS) (path : String) : FS × StatusMap :=
  match fs.lookupFile path with
  | some { content := .sqliteDb m, mode := _ } => (fs, m)
  | _ => (fs.setFile path { content := .sqliteDb [], mode := 0o644 }, [])

/-- Modelled from the spec: `SqliteStatus.load_legacy_status` imports every
legacy key/value pair into the store at `path`. -/
def sqlite_import (fs : FS) (path : String) (m : StatusMap) : FS :=
  match fs.lookupFile path with
  | some f => fs.setFile path { content := .sqliteDb m, mode := f.mode }
  | none => fs.setFile path { content := .sqliteDb m, mode := 0o644 }

/-- The legacy-peek step of `manage_sync_status`: open the file in binary
mode, peek one byte, and parse the whole file as a dict when that byte is
`{`; `OSError` and `ValueError` are swallowed as "no legacy data". -/
def msync_peek (fs : FS) (path : String) : Except Exc (Option StatusMap) :=
  match fs.openFile path with
  | .error (.osError _) => .ok none
  | .error (.valueError _) => .ok none
  | .error e => .error e
  | .ok c =>
    if c.firstByteIsBrace then
      match c.jsonLoadDict with
      | .ok m => .ok (some m)
      | .error (.osError _) => .ok none
      | .error (.valueError _) => .ok none
      | .error e => .error e
    else
      .ok none

/-- Models `manage_sync_status`: migrate a legacy flat-JSON status into the
incremental store (deleting the flat file), otherwise open or create the
incremental store; the mapping of the yielded store is returned. -/
def manage_sync_status (fs : FS) (base_path pair_name : String)
    (collection_name : Option String) :
    Except Exc (StatusMap × FS × List Ev) :=
  let r := get_status_path fs base_path pair_name collection_name "items"
  let path := r.1
  let fs1 := r.2.1
  let evs1 := r.2.2
  match msync_peek fs1 path with
  | .error e => .error e
  | .ok (some legacy) =>
    let fs2 := fs1.removeFile path
    let os := sqlite_open fs2 path
    let fs3 := sqlite_import os.1 path legacy
    .ok (legacy, fs3,
      evs1 ++ [Ev.logMsg .warning "Migrating legacy status to sqlite"])
  | .ok none =>
    let fs2 := prepare_status_path fs1 path
    let os := sqlite_open fs2 path
    .ok (os.2, os.1, evs1)

/-- Models `save_status`: computes the suffixed path directly (no legacy check),
prepares the directory, atomically writes the JSON dump and chmods the
file to `STATUS_PERMISSIONS`. The modelled `atomic_write` creates the
file with the owner-only mode of the temporary file. -/
def save_status (fs : FS) (base_path pair data_type : String)
    (data : StatusMap) (collection : Option String) : FS × List Ev :=
  let path := statusPathBase base_path pair collection ++ "." ++ data_type
  let fs1 := prepare_status_path fs path
  let fs2 := fs1.setFile path { content := .jsonObj data, mode := 0o600 }
  (fs2.chmod path STATUS_PERMISSIONS, [])

/-! ## Storage factory -/

/-- A configuration record: a Python dict of string keys to values. -/
abbrev Config := List (String × Val)

/-- Models `config.get(k, None)` / `config[k]` lookup. -/
def cfgLookup (c : Config) (k : String) : Option Val := c.lookup k

/-- Models `config.get(k, None)` with the Python `None` default. -/
def cfgGet (c : Config) (k : String) : Val := (cfgLookup c k).getD .vnull

/-- Remove a key (the effect of `dict.pop`). -/
def cfgErase (c : Config) (k : String) : Config := eraseKey k c

/-- Models `config[k] = v`. -/
def cfgInsert (c : Config) (k : String) (v : Val) : Config :=
  (k, v) :: cfgErase c k

/-- Models `set(config)`: the key set of a configuration dict. -/
def cfgKeys (c : Config) : List String := c.map (fun kv => kv.1)

/-- Modelled from the spec: the collaborator contract of a storage
implementation, which lives outside the provided sources — its declared
type name, whether it is a network storage (a `DAVStorage`/`HttpStorage`
subclass, receiving the shared connector), its declared parameter schema
as reported by `get_storage_init_args`, the behaviour of its constructor,
and its `create_collection` capability. -/
structure StorageCls where
  storage_name : String
  is_net : Bool
  all_args : List String
  required_args : List String
  construct : Config → Except Exc Nat
  create_collection : Config → Except Exc Config

/-- The `storage_names` registry: short type names to implementations
(lazy importing is not observable here, so the registry is a plain map). -/
abbrev Registry := List (String × StorageCls)

/-- Models `storage_class_from_config`: pop `type` from a copy of the config and
resolve it, turning an absent registry entry into a `UserError`; a config
without a `type` key raises `KeyError` from `dict.pop`. -/
def storage_class_from_config (reg : Registry) (config : Config) :
    Except Exc (StorageCls × Config) :=
  match cfgLookup config "type" with
  | none => .error (.keyError "type")
  | some v =>
    let rest := cfgErase config "type"
    match v with
    | .vstr name =>
      match reg.lookup name with
      | some cls => .ok (cls, rest)
      | none => .error (.userError ("Unknown storage type: " ++ name) [])
    | w => .error (.userError ("Unknown storage type: " ++ w.pyStr) [])

/-- The connector injection `new_config["connector"] = connector` applied
to network storages in `storage_instance_from_config`. -/
def inject_connector (cls : StorageCls) (cfg : Config) : Config :=
  if cls.is_net then cfgInsert cfg "connector" .vconn else cfg

/-- The `missing = required - given` set of `handle_storage_init_error`. -/
def hsieMissing (cls : StorageCls) (config : Config) : List String :=
  cls.required_args.filter (fun a => !(cfgKeys config).contains a)

/-- The `invalid = given - all` set of `handle_storage_init_error`. -/
def hsieInvalid (cls : StorageCls) (config : Config) : List String :=
  (cfgKeys config).filter (fun a => !cls.all_args.contains a)

/-- The `problems` list of `handle_storage_init_error`. -/
def hsieProblems (cls : StorageCls) (config : Config) : List String :=
  (if hsieMissing cls config ≠ [] then
    [cls.storage_name ++ " storage requires the parameters: "
      ++ String.intercalate ", " (hsieMissing cls config)]
  else []) ++
  (if hsieInvalid cls config ≠ [] then
    [cls.storage_name ++ " storage doesn\x27t take the parameters: "
      ++ String.intercalate ", " (hsieInvalid cls config)]
  else [])

/-- Models `handle_storage_init_error`: re-raise unless the in-flight failure is
a `TypeError` whose repr mentions `__init__`; compare the given keys with
the declared schema and raise a `UserError` when there are problems,
re-raising the original error when there are none. Reading
`config["instance_name"]` raises `KeyError` when the key is absent. -/
def handle_storage_init_error (cls : StorageCls) (config : Config)
    (e : Exc) : Except Exc Nat :=
  match e with
  | .typeError true m =>
    if hsieProblems cls config = [] then .error (.typeError true m)
    else
      match cfgLookup config "instance_name" with
      | some v =>
        .error (.userError ("Failed to initialize " ++ v.pyStr)
          (hsieProblems cls config))
      | none => .error (.keyError "instance_name")
  | _ => .error e

/-- The `UserError` message raised when the collection can be neither
found nor created. -/
def cnfDeclineMsg (collection storage_name : Val) : String :=
  "Unable to find or create collection \"" ++ collection.pyStr
    ++ "\" for storage \"" ++ storage_name.pyStr
    ++ "\". Please create the collection yourself."

/-- Models `handle_collection_not_found`: warn, ask the injected confirmation
service, attempt `create_collection` on consent (logging
`NotImplementedError` and falling through), and otherwise raise the
`UserError` telling the user to create the collection manually. -/
def handle_collection_not_found (reg : Registry) (confirm : Bool)
    (config : Config) (collection : Val) (e : Option String) :
    (Except Exc Config) × List Ev :=
  let storage_name := cfgGet config "instance_name"
  let evs0 : List Ev :=
    [Ev.recoveryInvoked,
     Ev.logMsg .warning
       ((match e with | some s => s ++ "\n" | none => "")
         ++ "No collection " ++ collection.jsonDumps
         ++ " found for storage " ++ storage_name.pyStr ++ ".")]
  let declined : Except Exc Config :=
    .error (.userError (cnfDeclineMsg collection storage_name) [])
  if confirm then
    match cfgLookup config "type" with
    | none => (.error (.keyError "type"), evs0)
    | some storage_type =>
      match storage_class_from_config reg config with
      | .error e2 => (.error e2, evs0)
      | .ok (cls, cfg1) =>
        let cfg2 := cfgInsert cfg1 "collection" collection
        match cls.create_collection cfg2 with
        | .ok args => (.ok (cfgInsert args "type" storage_type), evs0)
        | .error (.notImplementedError m) =>
          (declined, evs0 ++ [Ev.logMsg .error m])
        | .error e2 => (.error e2, evs0)
  else
    (declined, evs0)

/-- Models `storage_instance_from_config` with `create=False`: resolve the class,
inject the connector for network storages, attempt construction; a
`CollectionNotFound` propagates unchanged, any other failure goes through
`handle_storage_init_error`. -/
def sifcNoCreate (reg : Registry) (config : Config) :
    (Except Exc Nat) × List Ev :=
  match storage_class_from_config reg config with
  | .error e => (.error e, [])
  | .ok (cls, nc0) =>
    let nc := inject_connector cls nc0
    match cls.construct nc with
    | .ok inst => (.ok inst, [Ev.constructAttempt false])
    | .error (.collectionNotFound m) =>
      (.error (.collectionNotFound m), [Ev.constructAttempt false])
    | .error e =>
      (handle_storage_init_error cls nc e, [Ev.constructAttempt false])

/-- Models `storage_instance_from_config`: as `sifcNoCreate`, except that with
`create=True` a `CollectionNotFound` construction failure drives the
recovery flow once and, on a recovered config, retries construction once
with `create=False` (the recursion of the source, unrolled once since the
retry never recurses again). -/
def storage_instance_from_config (reg : Registry) (confirm : Bool)
    (config : Config) (create : Bool) : (Except Exc Nat) × List Ev :=
  if create then
    match storage_class_from_config reg config with
    | .error e => (.error e, [])
    | .ok (cls, nc0) =>
      let nc := inject_connector cls nc0
      match cls.construct nc with
      | .ok inst => (.ok inst, [Ev.constructAttempt true])
      | .error (.collectionNotFound m) =>
        let rcv := handle_collection_not_found reg confirm config
          (cfgGet config "collection") (some m)
        (match rcv with
         | (.error e2, evs) => (.error e2, Ev.constructAttempt true :: evs)
         | (.ok config2, evs) =>
           let retry := sifcNoCreate reg config2
           (retry.1, Ev.constructAttempt true :: (evs ++ retry.2)))
      | .error e =>
        (handle_storage_init_error cls nc e, [Ev.constructAttempt true])
  else
    sifcNoCreate reg config

/-! ## CLI error reporting -/

/-- Modelled from the spec: the documentation home URL, defined in the
package root outside the provided sources; its value is irrelevant here. -/
def DOCS_HOME : String := "https://vdirsyncer.pimutils.org/en/stable/"

/-- Modelled from the spec: the bug tracker URL, defined in the package
root outside the provided sources. -/
def BUGTRACKER_HOME : String := "https://github.com/pimutils/vdirsyncer/issues"

/-- Python `repr` of a string, as used for the offending href list. -/
def pyRepr (s : String) : String := "\x27" ++ s ++ "\x27"

/-- Models `handle_cli_error`: re-raise the error and pattern-match it against
the closed taxonomy, logging one tailored message per kind, nothing for a
user-initiated abort, and a generic message (plus a debug-level traceback)
for anything else. The function never raises; it returns the logged
events. -/
def handle_cli_error (status_name : Option String) (e : Exc) : List Ev :=
  match e with
  | .userError m ps =>
    [.logMsg .critical (Exc.pyStr (.userError m ps))]
  | .storageEmpty name =>
    [.logMsg .error
      (pyShow status_name ++ ": Storage \"" ++ name
        ++ "\" was completely emptied. If you want to delete ALL entries "
        ++ "on BOTH sides, then use `vdirsyncer sync --force-delete "
        ++ pyShow status_name ++ "`. Otherwise delete the files for "
        ++ pyShow status_name ++ " in your status directory.")]
  | .partialSync storage =>
    [.logMsg .error
      (pyShow status_name ++ ": Attempted change on " ++ storage
        ++ ", which is read-only. Set `partial_sync` in your pair section "
        ++ "to `ignore` to ignore those changes, or `revert` to revert "
        ++ "them on the other side.")]
  | .syncConflict ident hrefA hrefB =>
    [.logMsg .error
      (pyShow status_name ++ ": One item changed on both sides. Resolve "
        ++ "this conflict manually, or by setting the "
        ++ "`conflict_resolution` parameter in your config file.\n"
        ++ "See also " ++ DOCS_HOME ++ "config.html#pair-section\n"
        ++ "Item ID: " ++ ident ++ "\n"
        ++ "Item href on side A: " ++ hrefA ++ "\n"
        ++ "Item href on side B: " ++ hrefB ++ "\n")]
  | .identConflict instanceName hrefs =>
    [.logMsg .error
      (pyShow status_name ++ ": Storage \"" ++ instanceName
        ++ "\" contains multiple items with the same UID or even content. "
        ++ "Vdirsyncer will now abort the synchronization of this "
        ++ "collection, because the fix for this is not clear; It could "
        ++ "be the result of a badly behaving server. You can try "
        ++ "running:\n\n    vdirsyncer repair " ++ instanceName
        ++ "\n\nBut make sure to have a backup of your data in some form. "
        ++ "The offending hrefs are:\n\n"
        ++ String.intercalate "\n" (hrefs.map pyRepr) ++ "\n")]
  | .clickAbort => []
  | .keyboardInterrupt => []
  | .jobFailed => []
  | .pairNotFound pairName =>
    [.logMsg .error
      ("Pair " ++ pairName ++ " does not exist. Please check your "
        ++ "configuration file and make sure you\x27ve typed the pair "
        ++ "name correctly")]
  | .invalidResponse m =>
    [.logMsg .error
      ("The server returned something vdirsyncer doesn\x27t understand. "
        ++ "Error message: InvalidResponse(" ++ pyRepr m ++ ")\n"
        ++ "While this is most likely a serverside problem, the "
        ++ "vdirsyncer devs are generally interested in such bugs. "
        ++ "Please report it in the issue tracker at " ++ BUGTRACKER_HOME)]
  | .collectionRequired =>
    [.logMsg .error
      ("One or more storages don\x27t support `collections = null`. "
        ++ "You probably want to set `collections = [\"from a\", "
        ++ "\"from b\"]`.")]
  | e =>
    [.logMsg .error
      ((if pyTruthy status_name then
          "Unknown error occurred for " ++ pyShow status_name
        else "Unknown error occurred")
        ++ ": " ++ e.pyStr
        ++ "\nUse `-vdebug` to see the full traceback."),
     .logMsg .debug "<traceback>"]

/-- A string is never equal to itself extended by `"." ++ t`. -/
theorem self_ne_append_dot (s t : String) : s ≠ s ++ "." ++ t := by
  intro h
  have h2 := congrArg String.length h
  rw [String.length_append, String.length_append] at h2
  have h3 : (".").length = 1 := rfl
  omega

/-- A string is never equal to itself extended by `".items"`. -/
theorem self_ne_append_items (s : String) : s ≠ s ++ ".items" := by
  intro h
  have h2 := congrArg String.length h
  rw [String.length_append] at h2
  have h3 : (".items").length = 6 := rfl
  omega

theorem files_prepare_status_path (fs : FS) (p : String) :
    (prepare_status_path fs p).files = fs.files := by
  unfold prepare_status_path
  by_cases h : fs.isdir (os_dirname p) <;> simp [h]

theorem lookupFile_prepare_status_path (fs : FS) (p q : String) :
    (prepare_status_path fs p).lookupFile q = fs.lookupFile q := by
  unfold FS.lookupFile
  rw [files_prepare_status_path]

theorem FS.lookupFile_chmod_self (fs : FS) (p : String) (m : Nat) (f : File)
    (hf : fs.lookupFile p = some f) :
    (fs.chmod p m).lookupFile p = some { f with mode := m } := by
  unfold FS.chmod
  rw [hf]
  exact fs.lookupFile_setFile_self p _

/-- Models `handle_storage_init_error` re-raises any failure that is not a
parameter-mismatch `TypeError`. -/
theorem handle_storage_init_error_not_tyerr (cls : StorageCls)
    (config : Config) (e : Exc) (h : ∀ s, e ≠ .typeError true s) :
    handle_storage_init_error cls config e = .error e := by
  cases e <;> try rfl
  next b m =>
    cases b
    · rfl
    · exact absurd rfl (h m)

/-- Models `handle_storage_init_error` re-raises the original `TypeError` when
the parameter check finds no problems. -/
theorem handle_storage_init_error_no_problems (cls : StorageCls)
    (config : Config) (e : Exc) (h : hsieProblems cls config = []) :
    handle_storage_init_error cls config e = .error e := by
  cases e <;> try rfl
  next b m =>
    cases b
    · rfl
    · simp [handle_storage_init_error, h]

/-- When no extensionless legacy file is present, `get_status_path` is
pure: it returns the suffixed path and touches nothing. -/
theorem get_status_path_no_legacy (fs : FS) (base_path pair : String)
    (collection : Option String) (data_type : String)
    (h : fs.isfile (statusPathBase base_path pair collection) = false) :
    get_status_path fs base_path pair collection data_type
      = (statusPathBase base_path pair collection ++ "." ++ data_type,
         fs, []) := by
  simp [get_status_path, h]

/-- After `save_status`, the suffixed target path holds the JSON dump of
the data with mode `0o600`. -/
theorem save_status_target (fs : FS) (base_path pair data_type : String)
    (data : StatusMap) (collection : Option String) :
    ((save_status fs base_path pair data_type data collection).1).lookupFile
        (statusPathBase base_path pair collection ++ "." ++ data_type)
      = some { content := .jsonObj data, mode := 0o600 } := by
  unfold save_status
  have hset : ((prepare_status_path fs
      (statusPathBase base_path pair collection ++ "."
        ++ data_type)).setFile
      (statusPathBase base_path pair collection ++ "." ++ data_type)
      { content := .jsonObj data, mode := 0o600 }).lookupFile
      (statusPathBase base_path pair collection ++ "." ++ data_type)
      = some { content := .jsonObj data, mode := 0o600 } :=
    FS.lookupFile_setFile_self _ _ _
  rw [FS.lookupFile_chmod_self _ _ _ _ hset]
  rfl

/-- Models `save_status` touches no path other than its suffixed target. -/
theorem save_status_frame (fs : FS) (base_path pair data_type : String)
    (data : StatusMap) (collection : Option String) (q : String)
    (hq : q ≠ statusPathBase base_path pair collection ++ "." ++ data_type) :
    ((save_status fs base_path pair data_type data collection).1).lookupFile q
      = fs.lookupFile q := by
  unfold save_status
  rw [FS.lookupFile_chmod_ne _ _ _ _ hq,
    FS.lookupFile_setFile_ne _ _ _ _ hq,
    lookupFile_prepare_status_path]

/-- C2: for every error value — each taxonomy kind as well as any other
error — `handle_cli_error` returns normally (it is a total function of the
error) and logs exactly one user-visible message for the matched kind,
and zero messages for a user-initiated abort (`click.Abort`,
`KeyboardInterrupt`, `JobFailed`); the unclassified arm additionally logs
the full traceback only at debug level. -/
theorem C2_handle_cli_error_one_message (status_name : Option String)
    (e : Exc) :
    userMsgCount (handle_cli_error status_name e)
      = (if e.isAbortKind then 0 else 1) := by
  cases e <;>
    simp [handle_cli_error, userMsgCount, Exc.isAbortKind, Ev.isUserMsg,
      List.countP_cons]

/-- C8: `get_status_path` is idempotent — the first call returns the
unsuffixed path plus `"."` plus the data type, a second call on the
resulting filesystem returns the same final path and leaves the
filesystem unchanged, and across the two calls the legacy rename happens
at most once and only when the data type is `"items"`. -/
theorem C8_get_status_path_idempotent (fs : FS) (base_path pair : String)
    (collection : Option String) (data_type : String) :
    (get_status_path fs base_path pair collection data_type).1
      = statusPathBase base_path pair collection ++ "." ++ data_type
    ∧ (get_status_path
        (get_status_path fs base_path pair collection data_type).2.1
        base_path pair collection data_type).1
      = (get_status_path fs base_path pair collection data_type).1
    ∧ (get_status_path
        (get_status_path fs base_path pair collection data_type).2.1
        base_path pair collection data_type).2.1
      = (get_status_path fs base_path pair collection data_type).2.1
    ∧ renameCount
        ((get_status_path fs base_path pair collection data_type).2.2
          ++ (get_status_path
                (get_status_path fs base_path pair collection data_type).2.1
                base_path pair collection data_type).2.2) ≤ 1
    ∧ (data_type ≠ "items" →
        renameCount
          ((get_status_path fs base_path pair collection data_type).2.2
            ++ (get_status_path
                  (get_status_path fs base_path pair collection
                    data_type).2.1
                  base_path pair collection data_type).2.2) = 0) := by
  by_cases hc : (fs.isfile (statusPathBase base_path pair collection)
      && (data_type == "items")) = true
  · obtain ⟨hf, hdt'⟩ : fs.isfile (statusPathBase base_path pair collection)
        = true ∧ data_type = "items" := by simpa using hc
    obtain ⟨f, hlf⟩ : ∃ f,
        fs.lookupFile (statusPathBase base_path pair collection) = some f := by
      cases hl : fs.lookupFile (statusPathBase base_path pair collection) with
      | none => simp [FS.isfile, hl] at hf
      | some f => exact ⟨f, rfl⟩
    have h1 : get_status_path fs base_path pair collection data_type
        = (statusPathBase base_path pair collection ++ "." ++ data_type,
           (fs.removeFile (statusPathBase base_path pair collection)).setFile
             (statusPathBase base_path pair collection ++ ".items") f,
           [Ev.logMsg .warning
              ("Migrating statuses: Renaming "
                ++ statusPathBase base_path pair collection ++ " to "
                ++ (statusPathBase base_path pair collection ++ ".items")),
            Ev.renameEv (statusPathBase base_path pair collection)
              (statusPathBase base_path pair collection ++ ".items")]) := by
      simp [get_status_path, hc, FS.renameFile, hlf]
    have hfs2 : ((fs.removeFile (statusPathBase base_path pair
        collection)).setFile
          (statusPathBase base_path pair collection ++ ".items") f).isfile
        (statusPathBase base_path pair collection) = false := by
      unfold FS.isfile
      rw [FS.lookupFile_setFile_ne _ _ _ _
        (self_ne_append_items (statusPathBase base_path pair collection)),
        FS.lookupFile_removeFile_self]
      rfl
    have h2 : get_status_path
        ((fs.removeFile (statusPathBase base_path pair collection)).setFile
          (statusPathBase base_path pair collection ++ ".items") f)
        base_path pair collection data_type
        = (statusPathBase base_path pair collection ++ "." ++ data_type,
           (fs.removeFile (statusPathBase base_path pair collection)).setFile
             (statusPathBase base_path pair collection ++ ".items") f,
           []) := by
      simp [get_status_path, hfs2]
    rw [h1, h2]
    refine ⟨rfl, rfl, rfl, ?_, ?_⟩
    · simp [renameCount, List.countP_cons, Ev.isRename]
    · intro hne
      exact absurd hdt' hne
  · have hb : (fs.isfile (statusPathBase base_path pair collection)
        && (data_type == "items")) = false := by
      simpa using hc
    have h1 : get_status_path fs base_path pair collection data_type
        = (statusPathBase base_path pair collection ++ "." ++ data_type,
           fs, []) := by
      simp [get_status_path, hb]
    rw [h1]
    rw [h1]
    refine ⟨rfl, rfl, rfl, ?_, ?_⟩
    · simp [renameCount]
    · intro _
      simp [renameCount]

/-- C10: `save_status` computes its target path directly — the write and
the chmod land on the suffixed path, and a pre-existing extensionless
legacy file at the unsuffixed path is left in place, byte for byte. -/
theorem C10_save_status_ignores_legacy (fs : FS)
    (base_path pair data_type : String) (data : StatusMap)
    (collection : Option String) :
    ((save_status fs base_path pair data_type data collection).1).lookupFile
        (statusPathBase base_path pair collection)
      = fs.lookupFile (statusPathBase base_path pair collection)
    ∧ ((save_status fs base_path pair data_type data
          collection).1).lookupFile
        (statusPathBase base_path pair collection ++ "." ++ data_type)
      = some { content := .jsonObj data, mode := 0o600 } := by
  exact ⟨save_status_frame fs base_path pair data_type data collection _
      (self_ne_append_dot _ _),
    save_status_target fs base_path pair data_type data collection⟩

/-- C3 counterexample: the code compares modes numerically, not as a
bitmask — a file with mode `0o404` has the world-readable bit, which lies
outside the `0o600` ceiling, yet `assert_permissions` leaves the mode
unchanged and logs nothing, because `0o404 < 0o600` numerically. -/
theorem C3_counterexample :
    assert_permissions (⟨[("f", ⟨.jsonObj [], 0o404⟩)], []⟩ : FS) "f" 0o600
      = .ok ((⟨[("f", ⟨.jsonObj [], 0o404⟩)], []⟩ : FS), [])
    ∧ (0o404 &&& 0o600) ≠ 0o404 := by
  constructor
  · rfl
  · decide

/-- C3 (amended): `assert_permissions` treats the ceiling numerically —
whenever the masked mode of the file strictly exceeds the ceiling (as `0o644`
exceeds `0o600`), the mode is reduced to exactly the ceiling with one
warning; otherwise nothing changes; for an existing path the call never
raises. -/
theorem C3_assert_permissions_numeric (fs : FS) (path : String)
    (wanted : Nat) (f : File) (hf : fs.lookupFile path = some f) :
    (wanted < f.mode % 512 →
      assert_permissions fs path wanted
        = .ok (fs.chmod path wanted,
            [Ev.logMsg .warning
              ("Correcting permissions of " ++ path ++ " from "
                ++ octStr (f.mode % 512) ++ " to " ++ octStr wanted)]))
    ∧ (¬ wanted < f.mode % 512 →
      assert_permissions fs path wanted = .ok (fs, [])) := by
  constructor
  · intro hlt
    simp [assert_permissions, hf, hlt]
  · intro hge
    simp [assert_permissions, hf, hge]

/-- C3 witness: the example given by the spec itself — mode `0o644` against ceiling
`0o600` is corrected to exactly `0o600` without raising. -/
theorem C3_assert_permissions_witness :
    (0o600 : Nat) < 0o644 % 512
    ∧ assert_permissions (⟨[("f", ⟨.jsonObj [], 0o644⟩)], []⟩ : FS) "f" 0o600
      = .ok (FS.chmod (⟨[("f", ⟨.jsonObj [], 0o644⟩)], []⟩ : FS) "f" 0o600,
        [Ev.logMsg .warning
          ("Correcting permissions of " ++ "f" ++ " from "
            ++ octStr (0o644 % 512) ++ " to " ++ octStr 0o600)]) := by
  refine ⟨by decide, ?_⟩
  exact (C3_assert_permissions_numeric
    (⟨[("f", ⟨.jsonObj [], 0o644⟩)], []⟩ : FS) "f" 0o600
    ⟨.jsonObj [], 0o644⟩ rfl).1 (by decide)

/-- C6: in a filesystem without an extensionless legacy artifact,
`load_status` returns the empty mapping when the status path does not
exist, and also returns the empty mapping — never raising — when the
content of the file fails to parse as JSON (`ValueError`). -/
theorem C6_load_status_empty_on_missing_or_invalid (fs : FS)
    (base_path pair : String) (collection : Option String)
    (data_type : String)
    (hnol : fs.isfile (statusPathBase base_path pair collection) = false) :
    (fs.pathExists (statusPathBase base_path pair collection ++ "."
        ++ data_type) = false →
      load_status fs base_path pair collection data_type = .ok ([], fs, []))
    ∧ (∀ f s, fs.lookupFile (statusPathBase base_path pair collection
          ++ "." ++ data_type) = some f →
        f.content.jsonLoadDict = .error (.valueError s) →
        ∃ fs2 evs, load_status fs base_path pair collection data_type
          = .ok ([], fs2, evs)) := by
  have hg := get_status_path_no_legacy fs base_path pair collection
    data_type hnol
  constructor
  · intro hne
    simp [load_status, hg, hne]
  · intro f s hf hparse
    have hex : fs.pathExists (statusPathBase base_path pair collection
        ++ "." ++ data_type) = true := by
      simp [FS.pathExists, FS.isfile, hf]
    by_cases hm : STATUS_PERMISSIONS < f.mode % 512
    · have hls : load_status fs base_path pair collection data_type
          = .ok ([], fs.chmod (statusPathBase base_path pair collection
              ++ "." ++ data_type) STATUS_PERMISSIONS,
            [Ev.logMsg .warning
              ("Correcting permissions of "
                ++ (statusPathBase base_path pair collection ++ "."
                  ++ data_type) ++ " from " ++ octStr (f.mode % 512)
                ++ " to " ++ octStr STATUS_PERMISSIONS)]) := by
        simp [load_status, hg, hex, assert_permissions, hf, hm, FS.openFile,
          FS.lookupFile_chmod_self _ _ _ _ hf, hparse]
      exact ⟨_, _, hls⟩
    · have hls : load_status fs base_path pair collection data_type
          = .ok ([], fs, []) := by
        simp [load_status, hg, hex, assert_permissions, hf, hm, FS.openFile,
          hparse]
      exact ⟨_, _, hls⟩

/-- C6 witness: a concrete filesystem where the path is absent and one
where the file is unparseable both yield the empty mapping. -/
theorem C6_load_status_witness :
    (⟨[], []⟩ : FS).isfile (statusPathBase "/b" "p" none) = false
    ∧ (⟨[], []⟩ : FS).pathExists (statusPathBase "/b" "p" none ++ "."
        ++ "items") = false
    ∧ load_status (⟨[], []⟩ : FS) "/b" "p" none "items" = .ok ([], ⟨[], []⟩, [])
    ∧ (∃ fs2 evs,
        load_status
          (⟨[("/b/p.items", ⟨.notJson false, 0o600⟩)], []⟩ : FS)
          "/b" "p" none "items" = .ok ([], fs2, evs)) := by
  refine ⟨by decide, by decide, ?_, ?_⟩
  · exact (C6_load_status_empty_on_missing_or_invalid
      (⟨[], []⟩ : FS) "/b" "p" none "items" (by decide)).1 (by decide)
  · exact (C6_load_status_empty_on_missing_or_invalid
      (⟨[("/b/p.items", ⟨.notJson false, 0o600⟩)], []⟩ : FS)
      "/b" "p" none "items" (by decide)).2
      ⟨.notJson false, 0o600⟩ "invalid JSON" (by decide) rfl

/-- C7: in a filesystem without an extensionless legacy artifact,
`save_status` followed by `load_status` for the same pair and data type
round-trips the mapping exactly, and the mode of the status file after the
save is exactly `0o600`. -/
theorem C7_save_load_roundtrip (fs : FS) (base_path pair : String)
    (data : StatusMap)
    (hnol : fs.isfile (statusPathBase base_path pair none) = false) :
    ((save_status fs base_path pair "items" data none).1).lookupFile
        (statusPathBase base_path pair none ++ "." ++ "items")
      = some { content := .jsonObj data, mode := 0o600 }
    ∧ load_status (save_status fs base_path pair "items" data none).1
        base_path pair none "items"
      = .ok (data, (save_status fs base_path pair "items" data none).1,
          []) := by
  have htgt := save_status_target fs base_path pair "items" data none
  have hnol2 : ((save_status fs base_path pair "items" data
      none).1).isfile (statusPathBase base_path pair none) = false := by
    unfold FS.isfile
    rw [save_status_frame fs base_path pair "items" data none _
      (self_ne_append_dot _ _)]
    exact hnol
  have hg := get_status_path_no_legacy
    (save_status fs base_path pair "items" data none).1 base_path pair
    none "items" hnol2
  have hex : ((save_status fs base_path pair "items" data
      none).1).pathExists (statusPathBase base_path pair none ++ "."
        ++ "items") = true := by
    simp [FS.pathExists, FS.isfile, htgt]
  refine ⟨htgt, ?_⟩
  simp [load_status, hg, hex, assert_permissions, htgt, STATUS_PERMISSIONS,
    FS.openFile, FileContent.jsonLoadDict]

/-- C7 witness: a concrete round trip through a fresh filesystem. -/
theorem C7_save_load_roundtrip_witness :
    (⟨[], []⟩ : FS).isfile (statusPathBase "/b" "p" none) = false
    ∧ ((save_status (⟨[], []⟩ : FS) "/b" "p" "items" [("a", "1")]
          none).1).lookupFile (statusPathBase "/b" "p" none ++ "."
        ++ "items")
      = some { content := .jsonObj [("a", "1")], mode := 0o600 }
    ∧ load_status (save_status (⟨[], []⟩ : FS) "/b" "p" "items"
          [("a", "1")] none).1 "/b" "p" none "items"
      = .ok ([("a", "1")],
          (save_status (⟨[], []⟩ : FS) "/b" "p" "items" [("a", "1")]
            none).1, []) := by
  have h := C7_save_load_roundtrip (⟨[], []⟩ : FS) "/b" "p" [("a", "1")]
    (by decide)
  exact ⟨by decide, h.1, h.2⟩

/-- C9: when the status file exists and holds valid JSON whose top-level
value cannot be converted to a dict, `load_status` raises the `TypeError`
from `dict(...)` instead of returning a mapping — only `ValueError` is
caught. -/
theorem C9_load_status_raises_on_nonobject (fs : FS)
    (base_path pair : String) (collection : Option String)
    (data_type : String) (mo : Nat)
    (hnol : fs.isfile (statusPathBase base_path pair collection) = false)
    (hf : fs.lookupFile (statusPathBase base_path pair collection ++ "."
        ++ data_type) = some ⟨.jsonNonObj, mo⟩) :
    load_status fs base_path pair collection data_type
      = .error (.typeError false "cannot convert JSON value to dict") := by
  have hg := get_status_path_no_legacy fs base_path pair collection
    data_type hnol
  have hex : fs.pathExists (statusPathBase base_path pair collection
      ++ "." ++ data_type) = true := by
    simp [FS.pathExists, FS.isfile, hf]
  by_cases hm : STATUS_PERMISSIONS < mo % 512
  · simp [load_status, hg, hex, assert_permissions, hf, hm, FS.openFile,
      FS.lookupFile_chmod_self _ _ _ _ hf, FileContent.jsonLoadDict]
  · simp [load_status, hg, hex, assert_permissions, hf, hm, FS.openFile,
      FileContent.jsonLoadDict]

/-- C9 witness: a status file containing the JSON number `5`. -/
theorem C9_load_status_witness :
    (⟨[("/b/p.items", ⟨.jsonNonObj, 0o600⟩)], []⟩ : FS).isfile
        (statusPathBase "/b" "p" none) = false
    ∧ load_status (⟨[("/b/p.items", ⟨.jsonNonObj, 0o600⟩)], []⟩ : FS)
        "/b" "p" none "items"
      = .error (.typeError false "cannot convert JSON value to dict") := by
  refine ⟨by decide, ?_⟩
  exact C9_load_status_raises_on_nonobject
    (⟨[("/b/p.items", ⟨.jsonNonObj, 0o600⟩)], []⟩ : FS) "/b" "p" none
    "items" 0o600 (by decide) (by decide)

/-- Models `manage_sync_status` on an already-migrated (sqlite) status file: no
peek hit, the store is opened in place. -/
theorem manage_sync_status_opens_store (fs : FS) (base_path pair : String)
    (collection : Option String) (m : StatusMap) (mo : Nat)
    (hnol : fs.isfile (statusPathBase base_path pair collection) = false)
    (hst : fs.lookupFile (statusPathBase base_path pair collection
        ++ "." ++ "items") = some ⟨.sqliteDb m, mo⟩) :
    manage_sync_status fs base_path pair collection
      = .ok (m, prepare_status_path fs
          (statusPathBase base_path pair collection ++ "." ++ "items"),
          []) := by
  have hg := get_status_path_no_legacy fs base_path pair collection
    "items" hnol
  simp [manage_sync_status, hg, msync_peek, FS.openFile, hst,
    FileContent.firstByteIsBrace, sqlite_open,
    lookupFile_prepare_status_path]

/-- Models `manage_sync_status` when the peek finds no usable legacy data: it
falls through to opening or creating the incremental store, with an empty
event list (in particular no migration warning). -/
theorem manage_sync_status_no_legacy_data (fs : FS)
    (base_path pair : String) (collection : Option String)
    (hnol : fs.isfile (statusPathBase base_path pair collection) = false)
    (hpeek : msync_peek fs (statusPathBase base_path pair collection
        ++ "." ++ "items") = .ok none) :
    ∃ st fs3, manage_sync_status fs base_path pair collection
      = .ok (st, fs3, []) := by
  have hg := get_status_path_no_legacy fs base_path pair collection
    "items" hnol
  refine ⟨(sqlite_open (prepare_status_path fs
      (statusPathBase base_path pair collection ++ "." ++ "items"))
      (statusPathBase base_path pair collection ++ "." ++ "items")).2,
    (sqlite_open (prepare_status_path fs
      (statusPathBase base_path pair collection ++ "." ++ "items"))
      (statusPathBase base_path pair collection ++ "." ++ "items")).1,
    ?_⟩
  simp [manage_sync_status, hg, hpeek]

/-- C4: on a canonical `.items` path holding a flat-JSON legacy file,
`manage_sync_status` deletes the flat file, yields an incremental store
holding every legacy key/value pair unchanged, and emits the migration
warning exactly once; a second invocation on the resulting filesystem
performs no migration (empty event list) and yields the same store; and
a parse error while peeking (or a missing file) is treated as no legacy
data, falling through to opening or creating the incremental store with
no migration event. -/
theorem C4_manage_sync_status_migration (fs : FS) (base_path pair : String)
    (collection : Option String) (m : StatusMap) (mo : Nat)
    (hnol : fs.isfile (statusPathBase base_path pair collection) = false)
    (hleg : fs.lookupFile (statusPathBase base_path pair collection
        ++ "." ++ "items") = some ⟨.jsonObj m, mo⟩) :
    ∃ fs1,
      manage_sync_status fs base_path pair collection
        = .ok (m, fs1,
            [Ev.logMsg .warning "Migrating legacy status to sqlite"])
      ∧ fs1.lookupFile (statusPathBase base_path pair collection
          ++ "." ++ "items") = some ⟨.sqliteDb m, 0o644⟩
      ∧ (∃ fs2, manage_sync_status fs1 base_path pair collection
          = .ok (m, fs2, []))
      ∧ (∀ b mo2, ∃ st fs3,
          manage_sync_status
            (fs.setFile (statusPathBase base_path pair collection
              ++ "." ++ "items") ⟨.notJson b, mo2⟩)
            base_path pair collection
          = .ok (st, fs3, []))
      ∧ (∃ st fs3,
          manage_sync_status
            (fs.removeFile (statusPathBase base_path pair collection
              ++ "." ++ "items"))
            base_path pair collection
          = .ok (st, fs3, [])) := by
  have hup : statusPathBase base_path pair collection
      ≠ statusPathBase base_path pair collection ++ "." ++ "items" :=
    self_ne_append_dot _ _
  have hg := get_status_path_no_legacy fs base_path pair collection
    "items" hnol
  refine ⟨((fs.removeFile (statusPathBase base_path pair collection
      ++ "." ++ "items")).setFile
      (statusPathBase base_path pair collection ++ "." ++ "items")
      ⟨.sqliteDb [], 0o644⟩).setFile
      (statusPathBase base_path pair collection ++ "." ++ "items")
      ⟨.sqliteDb m, 0o644⟩, ?_, ?_, ?_, ?_, ?_⟩
  · simp [manage_sync_status, hg, msync_peek, FS.openFile, hleg,
      FileContent.firstByteIsBrace, FileContent.jsonLoadDict, sqlite_open,
      sqlite_import, FS.lookupFile_removeFile_self,
      FS.lookupFile_setFile_self]
  · exact FS.lookupFile_setFile_self _ _ _
  · have hst : (((fs.removeFile (statusPathBase base_path pair collection
        ++ "." ++ "items")).setFile
        (statusPathBase base_path pair collection ++ "." ++ "items")
        ⟨.sqliteDb [], 0o644⟩).setFile
        (statusPathBase base_path pair collection ++ "." ++ "items")
        ⟨.sqliteDb m, 0o644⟩).lookupFile
        (statusPathBase base_path pair collection ++ "." ++ "items")
        = some ⟨.sqliteDb m, 0o644⟩ :=
      FS.lookupFile_setFile_self _ _ _
    have hnol1 : (((fs.removeFile (statusPathBase base_path pair
        collection ++ "." ++ "items")).setFile
        (statusPathBase base_path pair collection ++ "." ++ "items")
        ⟨.sqliteDb [], 0o644⟩).setFile
        (statusPathBase base_path pair collection ++ "." ++ "items")
        ⟨.sqliteDb m, 0o644⟩).isfile
        (statusPathBase base_path pair collection) = false := by
      unfold FS.isfile
      rw [FS.lookupFile_setFile_ne _ _ _ _ hup,
        FS.lookupFile_setFile_ne _ _ _ _ hup,
        FS.lookupFile_removeFile_ne _ _ _ hup]
      exact hnol
    exact ⟨_, manage_sync_status_opens_store _ base_path pair collection
      m 0o644 hnol1 hst⟩
  · intro b mo2
    have hnol5 : (fs.setFile (statusPathBase base_path pair collection
        ++ "." ++ "items") ⟨.notJson b, mo2⟩).isfile
        (statusPathBase base_path pair collection) = false := by
      unfold FS.isfile
      rw [FS.lookupFile_setFile_ne _ _ _ _ hup]
      exact hnol
    have hl5 : (fs.setFile (statusPathBase base_path pair collection
        ++ "." ++ "items") ⟨.notJson b, mo2⟩).lookupFile
        (statusPathBase base_path pair collection ++ "." ++ "items")
        = some ⟨.notJson b, mo2⟩ :=
      FS.lookupFile_setFile_self _ _ _
    have hpeek : msync_peek (fs.setFile (statusPathBase base_path pair
        collection ++ "." ++ "items") ⟨.notJson b, mo2⟩)
        (statusPathBase base_path pair collection ++ "." ++ "items")
        = .ok none := by
      cases b <;>
        simp [msync_peek, FS.openFile, hl5, FileContent.firstByteIsBrace,
          FileContent.jsonLoadDict]
    exact manage_sync_status_no_legacy_data _ base_path pair collection
      hnol5 hpeek
  · have hnol6 : (fs.removeFile (statusPathBase base_path pair collection
        ++ "." ++ "items")).isfile
        (statusPathBase base_path pair collection) = false := by
      unfold FS.isfile
      rw [FS.lookupFile_removeFile_ne _ _ _ hup]
      exact hnol
    have hl6 : (fs.removeFile (statusPathBase base_path pair collection
        ++ "." ++ "items")).lookupFile
        (statusPathBase base_path pair collection ++ "." ++ "items")
        = none :=
      FS.lookupFile_removeFile_self _ _
    have hpeek : msync_peek (fs.removeFile (statusPathBase base_path pair
        collection ++ "." ++ "items"))
        (statusPathBase base_path pair collection ++ "." ++ "items")
        = .ok none := by
      simp [msync_peek, FS.openFile, hl6]
    exact manage_sync_status_no_legacy_data _ base_path pair collection
      hnol6 hpeek

/-- C4 witness: a concrete legacy flat-JSON status file is migrated. -/
theorem C4_manage_sync_status_witness :
    (⟨[("/b/p.items", ⟨.jsonObj [("k", "v")], 0o644⟩)], []⟩ : FS).isfile
        (statusPathBase "/b" "p" none) = false
    ∧ ∃ fs1,
        manage_sync_status
          (⟨[("/b/p.items", ⟨.jsonObj [("k", "v")], 0o644⟩)], []⟩ : FS)
          "/b" "p" none
        = .ok ([("k", "v")], fs1,
            [Ev.logMsg .warning "Migrating legacy status to sqlite"])
        ∧ fs1.lookupFile (statusPathBase "/b" "p" none ++ "." ++ "items")
            = some ⟨.sqliteDb [("k", "v")], 0o644⟩ := by
  refine ⟨by decide, ?_⟩
  obtain ⟨fs1, h1, h2, _⟩ := C4_manage_sync_status_migration
    (⟨[("/b/p.items", ⟨.jsonObj [("k", "v")], 0o644⟩)], []⟩ : FS)
    "/b" "p" none [("k", "v")] 0o644 (by decide) rfl
  exact ⟨fs1, h1, h2⟩

/-- Inversion of a successful `storage_class_from_config`. -/
theorem storage_class_from_config_inv (reg : Registry) (config : Config)
    (cls : StorageCls) (nc0 : Config)
    (h : storage_class_from_config reg config = .ok (cls, nc0)) :
    ∃ name, cfgLookup config "type" = some (.vstr name)
      ∧ reg.lookup name = some cls ∧ nc0 = cfgErase config "type" := by
  unfold storage_class_from_config at h
  cases hv : cfgLookup config "type" with
  | none => simp [hv] at h
  | some v =>
    cases v with
    | vnull => simp [hv] at h
    | vconn => simp [hv] at h
    | vstr name =>
      cases hr : reg.lookup name with
      | none => simp [hv, hr] at h
      | some cls2 =>
        simp [hv, hr] at h
        exact ⟨name, rfl, h.1 ▸ hr, h.2.symm⟩

/-- The recovery flow is entered exactly once per call and performs no
construction attempt itself. -/
theorem handle_collection_not_found_events (reg : Registry)
    (confirm : Bool) (config : Config) (collection : Val)
    (e : Option String) :
    recoveryCount (handle_collection_not_found reg confirm config
      collection e).2 = 1
    ∧ constructCount (handle_collection_not_found reg confirm config
      collection e).2 = 0 := by
  unfold handle_collection_not_found
  by_cases hcf : confirm
  · rw [if_pos hcf]
    cases cfgLookup config "type" with
    | none =>
      simp [recoveryCount, constructCount, List.countP_cons,
        Ev.isRecovery, Ev.isConstructAttempt]
    | some storage_type =>
      cases storage_class_from_config reg config with
      | error e2 =>
        simp [recoveryCount, constructCount, List.countP_cons,
          Ev.isRecovery, Ev.isConstructAttempt]
      | ok p =>
        obtain ⟨cls, cfg1⟩ := p
        cases hcc : cls.create_collection
            (cfgInsert cfg1 "collection" collection) with
        | ok args =>
          simp [hcc, recoveryCount, constructCount, List.countP_cons,
            Ev.isRecovery, Ev.isConstructAttempt]
        | error e2 =>
          cases e2 <;>
            simp [hcc, recoveryCount, constructCount, List.countP_cons,
              List.countP_append, Ev.isRecovery, Ev.isConstructAttempt]
  · rw [if_neg hcf]
    simp [recoveryCount, constructCount, List.countP_cons,
      Ev.isRecovery, Ev.isConstructAttempt]

/-- The `create=False` path never enters the recovery flow and attempts
construction at most once. -/
theorem sifcNoCreate_events (reg : Registry) (config : Config) :
    recoveryCount (sifcNoCreate reg config).2 = 0
    ∧ constructCount (sifcNoCreate reg config).2 ≤ 1 := by
  unfold sifcNoCreate
  cases storage_class_from_config reg config with
  | error e => simp [recoveryCount, constructCount]
  | ok p =>
    obtain ⟨cls, nc0⟩ := p
    cases hc : cls.construct (inject_connector cls nc0) with
    | ok i =>
      simp [hc, recoveryCount, constructCount, List.countP_cons,
        Ev.isRecovery, Ev.isConstructAttempt]
    | error e =>
      cases e <;>
        simp [hc, recoveryCount, constructCount, List.countP_cons,
          Ev.isRecovery, Ev.isConstructAttempt]

/-- C5: when construction fails with a collection-not-found error and
`create=True`, the recovery flow runs exactly once and construction is
attempted at most twice (the original attempt plus at most one retry);
declining the creation prompt fails with the `UserError` naming the
collection and the storage instance; and on a recovered config the retry
runs with `create=False`, so a second collection-not-found error
propagates unchanged. -/
theorem C5_collection_not_found_recovery (reg : Registry) (confirm : Bool)
    (config : Config) (cls : StorageCls) (nc0 : Config)
    (msg cn sn : String)
    (hcls : storage_class_from_config reg config = .ok (cls, nc0))
    (hcnf : cls.construct (inject_connector cls nc0)
      = .error (.collectionNotFound msg))
    (hcol : cfgGet config "collection" = .vstr cn)
    (hin : cfgGet config "instance_name" = .vstr sn) :
    recoveryCount (storage_instance_from_config reg confirm config
      true).2 = 1
    ∧ constructCount (storage_instance_from_config reg confirm config
      true).2 ≤ 2
    ∧ (confirm = false →
        (storage_instance_from_config reg confirm config true).1
          = .error (.userError (cnfDeclineMsg (.vstr cn) (.vstr sn)) []))
    ∧ (∀ config2 evs2,
        handle_collection_not_found reg confirm config (.vstr cn)
          (some msg) = (.ok config2, evs2) →
        (storage_instance_from_config reg confirm config true).1
          = (sifcNoCreate reg config2).1)
    ∧ (∀ config2 evs2 cls2 nc2 msg2,
        handle_collection_not_found reg confirm config (.vstr cn)
          (some msg) = (.ok config2, evs2) →
        storage_class_from_config reg config2 = .ok (cls2, nc2) →
        cls2.construct (inject_connector cls2 nc2)
          = .error (.collectionNotFound msg2) →
        (storage_instance_from_config reg confirm config true).1
          = .error (.collectionNotFound msg2)) := by
  have hc3 : confirm = false →
      (storage_instance_from_config reg confirm config true).1
        = .error (.userError (cnfDeclineMsg (.vstr cn) (.vstr sn)) []) := by
    intro hcf
    subst hcf
    simp [storage_instance_from_config, hcls, hcnf, hcol,
      handle_collection_not_found, hin]
  have hev := handle_collection_not_found_events reg confirm config
    (.vstr cn) (some msg)
  cases hr : handle_collection_not_found reg confirm config (.vstr cn)
      (some msg) with
  | mk r evs =>
    rw [hr] at hev
    cases r with
    | error e2 =>
      have hmain : storage_instance_from_config reg confirm config true
          = (.error e2, Ev.constructAttempt true :: evs) := by
        simp [storage_instance_from_config, hcls, hcnf, hcol, hr]
      refine ⟨?_, ?_, hc3, ?_, ?_⟩
      · rw [hmain]
        simpa [recoveryCount, List.countP_cons, Ev.isRecovery]
          using hev.1
      · rw [hmain]
        have h2 := hev.2
        simp only [constructCount] at h2 ⊢
        simp [List.countP_cons, Ev.isConstructAttempt, h2]
      · intro config2 evs2 h4
        simp at h4
      · intro config2 evs2 cls2 nc2 msg2 h4 h5 h6
        simp at h4
    | ok config2 =>
      have hmain : storage_instance_from_config reg confirm config true
          = ((sifcNoCreate reg config2).1,
             Ev.constructAttempt true
               :: (evs ++ (sifcNoCreate reg config2).2)) := by
        simp [storage_instance_from_config, hcls, hcnf, hcol, hr]
      have hrec := sifcNoCreate_events reg config2
      refine ⟨?_, ?_, hc3, ?_, ?_⟩
      · rw [hmain]
        have h1 := hev.1
        have h2 := hrec.1
        simp only [recoveryCount] at h1 h2 ⊢
        simp [List.countP_cons, List.countP_append, Ev.isRecovery, h1, h2]
      · rw [hmain]
        have h1 := hev.2
        have h2 := hrec.2
        simp only [constructCount] at h1 h2 ⊢
        simp [List.countP_cons, List.countP_append,
          Ev.isConstructAttempt, h1]
        omega
      · intro config2b evs2 h4
        obtain ⟨h5, h6⟩ : config2 = config2b ∧ evs = evs2 := by
          simpa using h4
        subst h5
        rw [hmain]
      · intro config2b evs2 cls2 nc2 msg2 h4 h5 h6
        obtain ⟨h7, h8⟩ : config2 = config2b ∧ evs = evs2 := by
          simpa using h4
        subst h7
        rw [hmain]
        simp [sifcNoCreate, h5, h6]

/-- C5 witness: a concrete absent collection with the prompt declined —
one recovery invocation, and the `UserError` names collection `cal` and
storage instance `st`. -/
theorem C5_recovery_witness :
    recoveryCount (storage_instance_from_config
        [("mem", ⟨"mem", false, ["collection", "instance_name"], [],
          fun _ => .error (.collectionNotFound "404"), fun c => .ok c⟩)]
        false
        [("type", .vstr "mem"), ("instance_name", .vstr "st"),
          ("collection", .vstr "cal")] true).2 = 1
    ∧ (storage_instance_from_config
        [("mem", ⟨"mem", false, ["collection", "instance_name"], [],
          fun _ => .error (.collectionNotFound "404"), fun c => .ok c⟩)]
        false
        [("type", .vstr "mem"), ("instance_name", .vstr "st"),
          ("collection", .vstr "cal")] true).1
      = .error (.userError (cnfDeclineMsg (.vstr "cal") (.vstr "st")) []) := by
  have h := C5_collection_not_found_recovery
    [("mem", ⟨"mem", false, ["collection", "instance_name"], [],
      fun _ => .error (.collectionNotFound "404"), fun c => .ok c⟩)]
    false
    [("type", .vstr "mem"), ("instance_name", .vstr "st"),
      ("collection", .vstr "cal")]
    ⟨"mem", false, ["collection", "instance_name"], [],
      fun _ => .error (.collectionNotFound "404"), fun c => .ok c⟩
    [("instance_name", .vstr "st"), ("collection", .vstr "cal")]
    "404" "cal" "st" rfl rfl rfl rfl
  exact ⟨h.1, h.2.2.1 rfl⟩

/-- C1 counterexample: a construction failure that is not a
parameter-mismatch `TypeError` — here a `ValueError` — propagates raw and
unclassified out of `storage_instance_from_config`, contradicting the
claim that a closed error kind is always raised instead. -/
theorem C1_counterexample :
    (storage_instance_from_config
        [("mem", ⟨"mem", false, ["instance_name"], [],
          fun _ => .error (.valueError "boom"), fun c => .ok c⟩)]
        false [("type", .vstr "mem"), ("instance_name", .vstr "st")]
        true).1
      = .error (.valueError "boom") := by
  rfl

/-- C1 (amended): when storage construction fails with anything other
than a collection-not-found error, `storage_instance_from_config`
delegates to `handle_storage_init_error`: a `TypeError` mentioning
`__init__` whose parameter check against the declared schema yields a
nonempty problem list is translated to a `UserError` listing the missing
and invalid parameters; every other construction failure — including a
`TypeError` with an empty problem list — is re-raised unchanged, so raw
construction errors can reach the caller. -/
theorem C1_construction_error_translation (reg : Registry)
    (confirm : Bool) (config : Config) (create : Bool) (cls : StorageCls)
    (nc0 : Config) (e : Exc)
    (hcls : storage_class_from_config reg config = .ok (cls, nc0))
    (hcons : cls.construct (inject_connector cls nc0) = .error e)
    (hncnf : ∀ s, e ≠ .collectionNotFound s) :
    (storage_instance_from_config reg confirm config create).1
        = handle_storage_init_error cls (inject_connector cls nc0) e
    ∧ ((∀ s, e ≠ .typeError true s) →
        (storage_instance_from_config reg confirm config create).1
          = .error e)
    ∧ (hsieProblems cls (inject_connector cls nc0) = [] →
        (storage_instance_from_config reg confirm config create).1
          = .error e)
    ∧ (∀ s v, e = .typeError true s →
        hsieProblems cls (inject_connector cls nc0) ≠ [] →
        cfgLookup (inject_connector cls nc0) "instance_name" = some v →
        (storage_instance_from_config reg confirm config create).1
          = .error (.userError ("Failed to initialize " ++ v.pyStr)
              (hsieProblems cls (inject_connector cls nc0)))) := by
  have h1 : (storage_instance_from_config reg confirm config create).1
      = handle_storage_init_error cls (inject_connector cls nc0) e := by
    cases create
    · cases e <;>
        simp [storage_instance_from_config, sifcNoCreate, hcls, hcons,
          handle_storage_init_error]
    · cases e <;>
        first
        | (exact absurd rfl (hncnf _))
        | (simp [storage_instance_from_config, hcls, hcons,
            handle_storage_init_error])
  refine ⟨h1, ?_, ?_, ?_⟩
  · intro h2
    rw [h1]
    exact handle_storage_init_error_not_tyerr cls _ e h2
  · intro h2
    rw [h1]
    exact handle_storage_init_error_no_problems cls _ e h2
  · intro s v he hp hv
    subst he
    rw [h1]
    simp [handle_storage_init_error, hp, hv]

/-- C1 witness: a construction `TypeError` mentioning `__init__` with a
missing required parameter is translated into a `UserError` naming the
instance and the problem. -/
theorem C1_translation_witness :
    (storage_instance_from_config
        [("mem", ⟨"mem", false, ["instance_name", "path"], ["path"],
          fun _ => .error (.typeError true "init"), fun c => .ok c⟩)]
        false [("type", .vstr "mem"), ("instance_name", .vstr "st")]
        true).1
      = .error (.userError ("Failed to initialize "
          ++ Val.pyStr (.vstr "st"))
          (hsieProblems
            ⟨"mem", false, ["instance_name", "path"], ["path"],
              fun _ => .error (.typeError true "init"), fun c => .ok c⟩
            (inject_connector
              ⟨"mem", false, ["instance_name", "path"], ["path"],
                fun _ => .error (.typeError true "init"), fun c => .ok c⟩
              [("instance_name", .vstr "st")]))) := by
  exact (C1_construction_error_translation
    [("mem", ⟨"mem", false, ["instance_name", "path"], ["path"],
      fun _ => .error (.typeError true "init"), fun c => .ok c⟩)]
    false [("type", .vstr "mem"), ("instance_name", .vstr "st")] true
    ⟨"mem", false, ["instance_name", "path"], ["path"],
      fun _ => .error (.typeError true "init"), fun c => .ok c⟩
    [("instance_name", .vstr "st")] (.typeError true "init")
    rfl rfl (fun s h => Exc.noConfusion h)).2.2.2 "init" (.vstr "st")
    rfl (by decide) rfl

end Vdirsyncer
